import Mathlib

/-!
Shallow embedding of `homework.py`, a polling Telegram notifier for homework
review statuses, together with proofs about its error handling and its
poll-check-notify cycle.

Python values flowing through the program (JSON payloads, records) are
modelled by the inductive type `Value`; Python exceptions that the program
raises or distinguishes are modelled by the closed type `Exc`; functions that
may raise return `Except Exc _`.  The two external transports (the HTTP
client and the Telegram bot) are black boxes, modelled as parameters: a
function `Request → TransportResult` for `requests.get` (plus the JSON
decoding of the body), and a predicate `String → Bool` telling which texts
make `bot.send_message` raise `telegram.TelegramError`.
-/

set_option autoImplicit false

namespace HomeworkBot

/-- A Python/JSON value: `None`, `bool`, `int`, `str`, `list`, or a `dict`
with string keys (JSON object keys are strings). -/
inductive Value where
  | null : Value
  | bool : Bool → Value
  | int : Int → Value
  | str : String → Value
  | list : List Value → Value
  | dict : List (String × Value) → Value
deriving Repr

mutual

/-- Python `repr` of a value (quotes around strings, brackets around
containers); used by `str` on containers. -/
def pyRepr : Value → String
  | Value.null => "None"
  | Value.bool b => if b then "True" else "False"
  | Value.int n => toString n
  | Value.str s => "\x27" ++ s ++ "\x27"
  | Value.list vs => "[" ++ pyReprList vs ++ "]"
  | Value.dict es => "\x7b" ++ pyReprEntries es ++ "\x7d"

/-- Comma-separated `repr`s of the elements of a list. -/
def pyReprList : List Value → String
  | [] => ""
  | [v] => pyRepr v
  | v :: vs => pyRepr v ++ ", " ++ pyReprList vs

/-- Comma-separated `repr`s of the key/value pairs of a dict. -/
def pyReprEntries : List (String × Value) → String
  | [] => ""
  | [(k, v)] => "\x27" ++ k ++ "\x27: " ++ pyRepr v
  | (k, v) :: es => "\x27" ++ k ++ "\x27: " ++ pyRepr v ++ ", " ++ pyReprEntries es

end

/-- Python `str` of a value, as used by f-string interpolation. -/
def pyStr : Value → String
  | Value.str s => s
  | v => pyRepr v

/-- Python dict subscription / membership: the value stored under `key`
(`none` models a `KeyError`). -/
def dictGet (entries : List (String × Value)) (key : String) : Option Value :=
  match entries.find? (fun e => e.1 == key) with
  | some e => some e.2
  | none => none

/-- The exceptions the program raises or distinguishes.  `ProblemsWithEndpoint`,
`EndpointDoesNotReturn200` and `CanNotSendMessage` are the exception
classes the script itself declares; the two `keyError` constructors are the
two distinct `KeyError`s raised by `parse_status`; `typeError` is the `TypeError` raised
by `check_response` (and by subscripting a non-dict); `jsonDecodeError` is
the error `responce.json()` raises on an unparsable body. -/
inductive Exc where
  | problemsWithEndpoint : Exc
  | endpointDoesNotReturn200 : Exc
  | canNotSendMessage : Exc
  | keyErrorMissingKeys : Exc
  | keyErrorUnknownStatus : Exc
  | typeError : Exc
  | jsonDecodeError : Exc
deriving Repr, DecidableEq

/-- `HOMEWORK_VERDICTS`: the fixed verdict table. -/
def HOMEWORK_VERDICTS : List (String × String) :=
  [("approved", "Работа проверена: ревьюеру всё понравилось. Ура!"),
   ("reviewing", "Работа взята на проверку ревьюером."),
   ("rejected", "Работа проверена: у ревьюера есть замечания.")]

/-- `HOMEWORK_VERDICTS[status]` for a status of type `str`. -/
def verdictsGet (s : String) : Option String :=
  match HOMEWORK_VERDICTS.find? (fun e => e.1 == s) with
  | some e => some e.2
  | none => none

/-- What the subscript `HOMEWORK_VERDICTS[status]` does for an arbitrary
status value. -/
inductive VerdictLookup where
  | found : String → VerdictLookup
  | keyErrorMiss : VerdictLookup
  | typeErrorUnhashable : VerdictLookup
deriving Repr, DecidableEq

/-- The subscript `HOMEWORK_VERDICTS[status]`: a string status is looked up
in the table and a miss raises `KeyError`; `None`, booleans and integers
are hashable but are never keys of the table, so they raise `KeyError` too;
lists and dicts are unhashable, so the subscript raises
`TypeError: unhashable type` before any lookup. -/
def verdictSubscript : Value → VerdictLookup
  | Value.str s =>
    match verdictsGet s with
    | some v => VerdictLookup.found v
    | none => VerdictLookup.keyErrorMiss
  | Value.list _ => VerdictLookup.typeErrorUnhashable
  | Value.dict _ => VerdictLookup.typeErrorUnhashable
  | _ => VerdictLookup.keyErrorMiss

/-- `parse_status(homework)`: requires the keys `homework_name` and `status`
(first `try`: missing either raises
`KeyError` about the required keys), then formats the
notification from the template and `HOMEWORK_VERDICTS[status]`.  The second
`try` catches only `KeyError`, re-raised as the
`KeyError` about an undetermined status; a `TypeError` from an unhashable
status value propagates out of `parse_status` uncaught.
Subscripting a non-dict argument also raises `TypeError`. -/
def parse_status (homework : Value) : Except Exc String :=
  match homework with
  | Value.dict d =>
    match dictGet d "homework_name", dictGet d "status" with
    | some homework_name, some status =>
      match verdictSubscript status with
      | VerdictLookup.found verdict =>
        Except.ok ("Изменился статус проверки работы \"" ++ pyStr homework_name
          ++ "\". " ++ verdict)
      | VerdictLookup.keyErrorMiss => Except.error Exc.keyErrorUnknownStatus
      | VerdictLookup.typeErrorUnhashable => Except.error Exc.typeError
    | _, _ => Except.error Exc.keyErrorMissingKeys
  | _ => Except.error Exc.typeError

/-- Whether an optional value is present and a Python `list`
(`isinstance(·, list)` after the key-presence check). -/
def isListOpt : Option Value → Bool
  | some (Value.list _) => true
  | _ => false

/-- `check_response(response)`: returns `response` unchanged when it is a
dict containing both keys `current_date` and `homeworks` whose `homeworks`
value is a list, and raises `TypeError` otherwise. -/
def check_response (response : Value) : Except Exc Value :=
  match response with
  | Value.dict d =>
    if (["current_date", "homeworks"].all (fun key => (dictGet d key).isSome))
        && isListOpt (dictGet d "homeworks")
    then Except.ok response
    else Except.error Exc.typeError
  | _ => Except.error Exc.typeError

/-- `RETRY_PERIOD = 600` seconds: both the sleep between cycles and the
widening of the poll window. -/
def RETRY_PERIOD : Int := 600

/-- `ENDPOINT`: the fixed API URL. -/
def ENDPOINT : String := "https://practicum.yandex.ru/api/user_api/homework_statuses/"

/-- `HEADERS`: the authorization header value built by the f-string
`OAuth {PRACTICUM_TOKEN}` (a missing token interpolates as `None`). -/
def HEADERS (practicumToken : Option String) : String :=
  "OAuth " ++ (match practicumToken with
               | some t => t
               | none => "None")

/-- The single outbound HTTP request `get_api_answer` performs. -/
structure Request where
  url : String
  authHeader : String
  from_date : Int
deriving Repr, DecidableEq

/-- What the HTTP transport does for a request: `raises` models any
exception out of `requests.get`; `returns code body` models a response with
status `code` whose `.json()` gives `body` (`none` meaning the body is not
valid JSON, so `.json()` raises). -/
inductive TransportResult where
  | raises : TransportResult
  | returns : Nat → Option Value → TransportResult

/-- `get_api_answer(timestamp)`: builds the one request (fixed endpoint,
OAuth header, `from_date = timestamp - RETRY_PERIOD`) and classifies the
outcome.  Only `requests.get` sits inside the `try`: a transport exception
becomes `ProblemsWithEndpoint`; a non-200 status becomes
`EndpointDoesNotReturn200`; on 200 the body is parsed by `responce.json()`
outside any handler, so an invalid body raises the JSON-decoding error
itself.  Returns the list of requests issued (always exactly one) together
with the result. -/
def get_api_answer (transport : Request → TransportResult)
    (practicumToken : Option String) (timestamp : Int) :
    List Request × Except Exc Value :=
  let req : Request := ⟨ENDPOINT, HEADERS practicumToken, timestamp - RETRY_PERIOD⟩
  match transport req with
  | TransportResult.raises => ([req], Except.error Exc.problemsWithEndpoint)
  | TransportResult.returns code body =>
    if code = 200 then
      match body with
      | some v => ([req], Except.ok v)
      | none => ([req], Except.error Exc.jsonDecodeError)
    else ([req], Except.error Exc.endpointDoesNotReturn200)

/-- `send_message(bot, text)`: a `telegram.TelegramError` from the transport
is logged and re-raised as `CanNotSendMessage`; otherwise the send succeeds.
`sendRaises` tells which texts make the bot transport raise. -/
def send_message (sendRaises : String → Bool) (text : String) : Except Exc Unit :=
  if sendRaises text then Except.error Exc.canNotSendMessage else Except.ok ()

/-- The `for homework in ...` loop over the `homeworks` list in `main`: each record
is interpreted by `parse_status` and the result sent by `send_message`, with
no per-record handler, so the first exception aborts the rest of the batch.
Returns the texts passed to `send_message` in order (the delivery attempts)
and the exception that escaped the loop, if any; every attempt but a final
`canNotSendMessage` one succeeded. -/
def processBatch (sendRaises : String → Bool) : List Value → List String × Option Exc
  | [] => ([], none)
  | hw :: rest =>
    match parse_status hw with
    | Except.error e => ([], some e)
    | Except.ok msg =>
      match send_message sendRaises msg with
      | Except.error e => ([msg], some e)
      | Except.ok _ =>
        let r := processBatch sendRaises rest
        (msg :: r.1, r.2)

/-- The external world one cycle interacts with: the HTTP transport and the
bot transport. -/
structure CycleWorld where
  transport : Request → TransportResult
  sendRaises : String → Bool

/-- What one iteration of the `while True` body did: the HTTP requests
issued, the delivery attempts, whether the cycle-level `except Exception`
handler logged a failure, and the sleep the `finally` performs. -/
structure CycleOutcome where
  requests : List Request
  attempts : List String
  errorLogged : Bool
  sleep : Int
deriving Repr, DecidableEq

/-- The guarded part of one iteration of the `while True` body of `main`
(everything inside the `try`), given the result of `get_api_answer`:
validate, and either note an empty batch or run the notification loop.  Any
exception reaching this level is caught by the cycle-level
`except Exception` handler; the `Bool` records whether that handler logged
a failure. -/
def cycleBody (sendRaises : String → Bool) (fetched : Except Exc Value) :
    List String × Bool :=
  match fetched with
  | Except.error _ => ([], true)
  | Except.ok raw =>
    match check_response raw with
    | Except.error _ => ([], true)
    | Except.ok resp =>
      match resp with
      | Value.dict d =>
        match dictGet d "homeworks" with
        | some (Value.list hws) =>
          match hws with
          | [] => ([], false)
          | _ :: _ =>
            match processBatch sendRaises hws with
            | (attempts, none) => (attempts, false)
            | (attempts, some _) => (attempts, true)
        | _ => ([], true)
      | _ => ([], true)

/-- One iteration of the `while True` body of `main`: fetch, then the
guarded body, then the `finally` that always sleeps `RETRY_PERIOD`. -/
def runCycle (practicumToken : Option String) (w : CycleWorld) (timestamp : Int) :
    CycleOutcome :=
  let fetched := get_api_answer w.transport practicumToken timestamp
  let body := cycleBody w.sendRaises fetched.2
  ⟨fetched.1, body.1, body.2, RETRY_PERIOD⟩

/-- The `while True` loop, observed over a finite prefix of cycles: each
element of `worlds` supplies the external world and the `int(time.time())`
timestamp of one cycle.  No outcome of a cycle stops the loop. -/
def runLoop (practicumToken : Option String) :
    List (CycleWorld × Int) → List CycleOutcome
  | [] => []
  | (w, ts) :: rest => runCycle practicumToken w ts :: runLoop practicumToken rest

/-- The three module-level secrets, as read from the environment (`None`
when the variable is unset). -/
structure Env where
  PRACTICUM_TOKEN : Option String
  TELEGRAM_TOKEN : Option String
  TELEGRAM_CHAT_ID : Option String

/-- `globals().get(token)` for the three secret names. -/
def globalsGet (env : Env) : String → Option String
  | "PRACTICUM_TOKEN" => env.PRACTICUM_TOKEN
  | "TELEGRAM_TOKEN" => env.TELEGRAM_TOKEN
  | "TELEGRAM_CHAT_ID" => env.TELEGRAM_CHAT_ID
  | _ => none

/-- The list comprehension in `check_tokens`: the secret names whose global
value is `None`.  Note the test is `is None`, not emptiness. -/
def missingTokens (env : Env) : List String :=
  ["PRACTICUM_TOKEN", "TELEGRAM_TOKEN", "TELEGRAM_CHAT_ID"].filter
    (fun token => (globalsGet env token).isNone)

/-- `check_tokens()`: `true` means the missing list is non-empty and the
function calls `sys.exit()`. -/
def check_tokens (env : Env) : Bool :=
  !(missingTokens env).isEmpty

/-- The observable outcome of `main`: the process exited from
`check_tokens` (with the logged list of missing names), or it crashed on an
uncaught exception from `telegram.Bot(token=TELEGRAM_TOKEN)` — the bot
construction sits outside any handler — or the loop ran. -/
inductive MainResult where
  | exited : List String → MainResult
  | crashed : MainResult
  | ran : List CycleOutcome → MainResult
deriving Repr, DecidableEq

/-- `main()`: `check_tokens` runs exactly once, before anything else; if it
exits, nothing else happens.  Then `bot = telegram.Bot(token=TELEGRAM_TOKEN)`
runs outside any handler: the telegram library is a black box whose token
validation is the parameter `botInitRaises` (the real library raises
`InvalidToken` for an unset, empty or malformed token); if it raises, the
process dies before the loop and before any HTTP request.  Otherwise the
loop runs over the supplied worlds. -/
def main (env : Env) (botInitRaises : Option String → Bool)
    (worlds : List (CycleWorld × Int)) : MainResult :=
  if check_tokens env then MainResult.exited (missingTokens env)
  else if botInitRaises env.TELEGRAM_TOKEN then MainResult.crashed
  else MainResult.ran (runLoop env.PRACTICUM_TOKEN worlds)

/-- All HTTP requests the process issued. -/
def mainRequests : MainResult → List Request
  | MainResult.exited _ => []
  | MainResult.crashed => []
  | MainResult.ran cs => (cs.map (fun c => c.requests)).flatten

/-! Concrete fixtures used by witnesses and counterexamples. -/

/-- A record with a valid `approved` status. -/
def hwApproved : Value :=
  Value.dict [("homework_name", Value.str "B"), ("status", Value.str "approved")]

/-- A second valid record, with a `reviewing` status. -/
def hwReviewing : Value :=
  Value.dict [("homework_name", Value.str "C"), ("status", Value.str "reviewing")]

/-- A record carrying a status outside the verdict table. -/
def hwUnknown : Value :=
  Value.dict [("homework_name", Value.str "A"), ("status", Value.str "unexpected")]

/-- The notification `parse_status` builds for `hwApproved`. -/
def msgApproved : String :=
  "Изменился статус проверки работы \"B\". Работа проверена: ревьюеру всё понравилось. Ура!"

/-- A bot transport that never raises. -/
def noSendFailure : String → Bool := fun _ => false

/-- A world whose HTTP transport raises on every request and whose bot never
fails. -/
def probeWorld : CycleWorld := ⟨fun _ => TransportResult.raises, noSendFailure⟩

/-- An environment where all three secrets are set but empty. -/
def envEmptyStrings : Env := ⟨some "", some "", some ""⟩

/-- The token validation of the real telegram library (a black box): `Bot`
raises `InvalidToken` when the token is unset or empty. -/
def botRejectsEmptyToken : Option String → Bool
  | some t => t.isEmpty
  | none => true

/-- A record whose status is a JSON array — outside the verdict table and
unhashable. -/
def hwUnhashableStatus : Value :=
  Value.dict [("homework_name", Value.str "D"),
    ("status", Value.list [Value.str "weird"])]

/-- A well-formed payload with an empty homeworks list. -/
def goodResponse : Value :=
  Value.dict [("current_date", Value.int 1), ("homeworks", Value.list [])]

/-! Helper lemmas shared by the claim theorems. -/

/-- `isListOpt` holds exactly on present list values. -/
theorem isListOpt_eq_true (o : Option Value) :
    isListOpt o = true ↔ ∃ hws, o = some (Value.list hws) := by
  cases o with
  | none => simp [isListOpt]
  | some v => cases v <;> simp [isListOpt]

/-- The first component of `get_api_answer` is always the single request to
the fixed endpoint. -/
theorem get_api_answer_fst (transport : Request → TransportResult)
    (tok : Option String) (ts : Int) :
    (get_api_answer transport tok ts).1
      = [⟨ENDPOINT, HEADERS tok, ts - RETRY_PERIOD⟩] := by
  simp only [get_api_answer]
  split
  · rfl
  · split
    · split <;> rfl
    · rfl

/-- A prefix of the batch that the loop completed without an exception is
preserved when more records follow. -/
theorem processBatch_append_ok (sendRaises : String → Bool) (pre : List Value)
    (msgs : List String) (rest : List Value)
    (hpre : processBatch sendRaises pre = (msgs, none)) :
    processBatch sendRaises (pre ++ rest)
      = (msgs ++ (processBatch sendRaises rest).1, (processBatch sendRaises rest).2) := by
  induction pre generalizing msgs with
  | nil =>
    simp only [processBatch, Prod.mk.injEq] at hpre
    obtain ⟨h1, -⟩ := hpre
    simp [← h1]
  | cons hw ps ih =>
    cases hparse : parse_status hw with
    | error e =>
      simp only [processBatch, hparse, Prod.mk.injEq] at hpre
      exact absurd hpre.2 (by simp)
    | ok msg =>
      cases hsend : send_message sendRaises msg with
      | error e =>
        simp only [processBatch, hparse, hsend, Prod.mk.injEq] at hpre
        exact absurd hpre.2 (by simp)
      | ok u =>
        simp only [processBatch, hparse, hsend, Prod.mk.injEq] at hpre
        obtain ⟨h1, h2⟩ := hpre
        have hps : processBatch sendRaises ps = ((processBatch sendRaises ps).1, none) := by
          rw [← h2]
        simp only [List.cons_append, processBatch, hparse, hsend, List.append_eq]
        rw [ih _ hps, ← h1]
        simp

/-! The claim theorems. -/

/-- C4: `get_api_answer` fails with `ProblemsWithEndpoint` exactly when the
transport call raises an exception, fails with `EndpointDoesNotReturn200`
exactly when the transport succeeds but the HTTP status is not 200, and on
HTTP 200 with valid JSON returns the parsed body unchanged. -/
theorem get_api_answer_classifies_failures (transport : Request → TransportResult)
    (tok : Option String) (ts : Int) :
    ((get_api_answer transport tok ts).2 = Except.error Exc.problemsWithEndpoint ↔
      transport ⟨ENDPOINT, HEADERS tok, ts - RETRY_PERIOD⟩ = TransportResult.raises)
    ∧ ((get_api_answer transport tok ts).2 = Except.error Exc.endpointDoesNotReturn200 ↔
      ∃ code body, transport ⟨ENDPOINT, HEADERS tok, ts - RETRY_PERIOD⟩
          = TransportResult.returns code body ∧ code ≠ 200)
    ∧ (∀ v : Value, transport ⟨ENDPOINT, HEADERS tok, ts - RETRY_PERIOD⟩
          = TransportResult.returns 200 (some v) →
      (get_api_answer transport tok ts).2 = Except.ok v) := by
  cases h : transport ⟨ENDPOINT, HEADERS tok, ts - RETRY_PERIOD⟩ with
  | raises => simp [get_api_answer, h]
  | returns code body =>
    by_cases hc : code = 200
    · subst hc
      cases body <;> simp [get_api_answer, h]
    · cases body <;> simp [get_api_answer, h, hc]

/-- C4 witness: a 200 response with a JSON body is returned unchanged. -/
theorem get_api_answer_classifies_failures_witness :
    (get_api_answer (fun _ => TransportResult.returns 200 (some (Value.int 7)))
        (some "tok") 0).2 = Except.ok (Value.int 7) :=
  (get_api_answer_classifies_failures
      (fun _ => TransportResult.returns 200 (some (Value.int 7)))
      (some "tok") 0).2.2 (Value.int 7) rfl

/-- C5: `check_response` returns its argument unchanged exactly when the
argument is a dict that contains both keys `current_date` and `homeworks`
and whose `homeworks` value is a list, and raises `TypeError` in every
other case. -/
theorem check_response_validates_shape (v : Value) :
    (check_response v = Except.ok v ↔
      ∃ d hws cd, v = Value.dict d ∧ dictGet d "current_date" = some cd
        ∧ dictGet d "homeworks" = some (Value.list hws))
    ∧ ((¬ ∃ d hws cd, v = Value.dict d ∧ dictGet d "current_date" = some cd
        ∧ dictGet d "homeworks" = some (Value.list hws)) →
      check_response v = Except.error Exc.typeError) := by
  cases v
  case dict d =>
    cases hcd : dictGet d "current_date" with
    | none => simp [check_response, hcd]
    | some cd =>
      cases hhw : dictGet d "homeworks" with
      | none => simp [check_response, hcd, hhw, isListOpt]
      | some hv =>
        cases hv <;> simp [check_response, hcd, hhw, isListOpt]
  all_goals simp [check_response]

/-- C5 witness: a well-formed payload passes unchanged; a non-dict payload
raises `TypeError`. -/
theorem check_response_validates_shape_witness :
    check_response goodResponse = Except.ok goodResponse
    ∧ check_response (Value.int 3) = Except.error Exc.typeError :=
  ⟨(check_response_validates_shape goodResponse).1.mpr
      ⟨[("current_date", Value.int 1), ("homeworks", Value.list [])],
        [], Value.int 1, rfl, rfl, rfl⟩,
   (check_response_validates_shape (Value.int 3)).2 (by simp)⟩

/-- C6: for every record carrying a string name and a status from the
verdict table, `parse_status` builds the notification from the fixed
template and the verdict table. -/
theorem parse_status_formats_from_template (d : List (String × Value))
    (n s verdict : String)
    (hname : dictGet d "homework_name" = some (Value.str n))
    (hstatus : dictGet d "status" = some (Value.str s))
    (hverdict : verdictsGet s = some verdict) :
    parse_status (Value.dict d)
      = Except.ok ("Изменился статус проверки работы \"" ++ n ++ "\". " ++ verdict) := by
  simp [parse_status, hname, hstatus, verdictSubscript, hverdict, pyStr]

/-- C6 witness: the record with name `X` and status `approved` yields
exactly the specified Russian sentence. -/
theorem parse_status_formats_from_template_witness :
    parse_status (Value.dict [("homework_name", Value.str "X"),
        ("status", Value.str "approved")])
      = Except.ok "Изменился статус проверки работы \"X\". Работа проверена: ревьюеру всё понравилось. Ура!" := by
  have h := parse_status_formats_from_template
    [("homework_name", Value.str "X"), ("status", Value.str "approved")]
    "X" "approved" "Работа проверена: ревьюеру всё понравилось. Ура!" rfl rfl rfl
  rw [h]
  exact rfl

/-- C7 counterexample: a record whose status is a JSON array carries a
status that is not one of the three codes, yet `parse_status` raises an
uncaught `TypeError` (unhashable type) — the second `try` catches only
`KeyError` — and not the `KeyError` about an undetermined status. -/
theorem unhashable_status_not_keyerror_cex :
    parse_status hwUnhashableStatus = Except.error Exc.typeError
    ∧ ¬ parse_status hwUnhashableStatus
        = Except.error Exc.keyErrorUnknownStatus := by
  have h : parse_status hwUnhashableStatus = Except.error Exc.typeError := rfl
  refine ⟨h, ?_⟩
  rw [h]
  simp

/-- C7 amended: `parse_status` raises the `KeyError` about required keys for
every record missing `homework_name` or `status`; raises the `KeyError`
about an undetermined status for every record whose status is hashable but
not one of the three codes — a string outside the table, or a `None`, bool
or int scalar; raises an uncaught `TypeError` for every record whose status
is unhashable (a list or an object), since the handler catches only
`KeyError`; and never raises on records with both keys and a table
status. -/
theorem parse_status_error_classification (d : List (String × Value)) :
    ((dictGet d "homework_name" = none ∨ dictGet d "status" = none) →
      parse_status (Value.dict d) = Except.error Exc.keyErrorMissingKeys)
    ∧ (∀ nv s, dictGet d "homework_name" = some nv →
      dictGet d "status" = some (Value.str s) → verdictsGet s = none →
      parse_status (Value.dict d) = Except.error Exc.keyErrorUnknownStatus)
    ∧ (∀ nv sv, dictGet d "homework_name" = some nv →
      dictGet d "status" = some sv →
      (sv = Value.null ∨ (∃ b, sv = Value.bool b) ∨ (∃ n, sv = Value.int n)) →
      parse_status (Value.dict d) = Except.error Exc.keyErrorUnknownStatus)
    ∧ (∀ nv sv, dictGet d "homework_name" = some nv →
      dictGet d "status" = some sv →
      ((∃ l, sv = Value.list l) ∨ (∃ es, sv = Value.dict es)) →
      parse_status (Value.dict d) = Except.error Exc.typeError)
    ∧ (∀ nv s verdict, dictGet d "homework_name" = some nv →
      dictGet d "status" = some (Value.str s) → verdictsGet s = some verdict →
      parse_status (Value.dict d)
        = Except.ok ("Изменился статус проверки работы \"" ++ pyStr nv
            ++ "\". " ++ verdict)) := by
  refine ⟨?_, ?_, ?_, ?_, ?_⟩
  · rintro (h | h)
    · simp [parse_status, h]
    · cases hhn : dictGet d "homework_name" <;> simp [parse_status, hhn, h]
  · intro nv s h1 h2 h3
    simp [parse_status, h1, h2, verdictSubscript, h3]
  · rintro nv sv h1 h2 (rfl | ⟨b, rfl⟩ | ⟨n, rfl⟩) <;>
      simp [parse_status, h1, h2, verdictSubscript]
  · rintro nv sv h1 h2 (⟨l, rfl⟩ | ⟨es, rfl⟩) <;>
      simp [parse_status, h1, h2, verdictSubscript]
  · intro nv s verdict h1 h2 h3
    simp [parse_status, h1, h2, verdictSubscript, h3]

/-- C7 amended witness: a record missing `homework_name` raises the
`KeyError` about required keys. -/
theorem parse_status_error_classification_witness :
    parse_status (Value.dict [("status", Value.str "approved")])
      = Except.error Exc.keyErrorMissingKeys :=
  (parse_status_error_classification [("status", Value.str "approved")]).1
    (Or.inl rfl)

/-- C8: for every window-start timestamp, `get_api_answer` issues exactly
one request, to the fixed endpoint, with the OAuth authorization header
derived from the API token, and with `from_date` equal to the timestamp
minus the 600-second poll interval. -/
theorem request_carries_window_and_auth (transport : Request → TransportResult)
    (t : String) (ts : Int) :
    (get_api_answer transport (some t) ts).1
      = [⟨ENDPOINT, "OAuth " ++ t, ts - 600⟩]
    ∧ RETRY_PERIOD = 600 :=
  ⟨get_api_answer_fst transport (some t) ts, rfl⟩

/-- C9: the loop runs every cycle to completion and, whatever the cycle did
or raised, sleeps exactly `RETRY_PERIOD = 600` seconds after it and goes on
to the next cycle; no cycle-scoped error terminates the loop. -/
theorem loop_sleeps_fixed_and_continues (tok : Option String)
    (worlds : List (CycleWorld × Int)) :
    (runLoop tok worlds).length = worlds.length
    ∧ (runLoop tok worlds).map (fun o => o.sleep)
        = worlds.map (fun _ => (600 : Int)) := by
  induction worlds with
  | nil => exact ⟨rfl, rfl⟩
  | cons p rest ih =>
    obtain ⟨w, ts⟩ := p
    refine ⟨?_, ?_⟩
    · simpa [runLoop] using ih.1
    · simpa [runLoop, runCycle, RETRY_PERIOD] using ih.2

/-- C10: on HTTP 200 with an invalid JSON body, `get_api_answer` raises the
JSON-decoding error itself — typed as neither `ProblemsWithEndpoint` nor
`EndpointDoesNotReturn200`, since only the transport call is guarded — and
the error is absorbed only by the cycle-level handler: the cycle makes no
delivery attempt, logs the failure, and still sleeps. -/
theorem json_error_escapes_fetch (transport : Request → TransportResult)
    (tok : Option String) (ts : Int) (sendRaises : String → Bool)
    (h : transport ⟨ENDPOINT, HEADERS tok, ts - RETRY_PERIOD⟩
      = TransportResult.returns 200 none) :
    (get_api_answer transport tok ts).2 = Except.error Exc.jsonDecodeError
    ∧ Exc.jsonDecodeError ≠ Exc.problemsWithEndpoint
    ∧ Exc.jsonDecodeError ≠ Exc.endpointDoesNotReturn200
    ∧ runCycle tok ⟨transport, sendRaises⟩ ts
        = ⟨[⟨ENDPOINT, HEADERS tok, ts - RETRY_PERIOD⟩], [], true, RETRY_PERIOD⟩ := by
  refine ⟨?_, by simp, by simp, ?_⟩
  · simp [get_api_answer, h]
  · simp [runCycle, cycleBody, get_api_answer, h]

/-- C10 witness: a concrete 200 response with an unparsable body. -/
theorem json_error_escapes_fetch_witness :
    (get_api_answer (fun _ => TransportResult.returns 200 none) (some "tok") 50).2
      = Except.error Exc.jsonDecodeError
    ∧ Exc.jsonDecodeError ≠ Exc.problemsWithEndpoint
    ∧ Exc.jsonDecodeError ≠ Exc.endpointDoesNotReturn200
    ∧ runCycle (some "tok") ⟨fun _ => TransportResult.returns 200 none, noSendFailure⟩ 50
        = ⟨[⟨ENDPOINT, HEADERS (some "tok"), 50 - RETRY_PERIOD⟩], [], true, RETRY_PERIOD⟩ :=
  json_error_escapes_fetch (fun _ => TransportResult.returns 200 none)
    (some "tok") 50 noSendFailure rfl

/-- C1 counterexample: in a batch of two records where the record with the
unknown status comes first, the `KeyError` from `parse_status` escapes the
`for` loop, so the subsequent valid record is never interpreted or
notified — the batch yields zero delivery attempts, not one. -/
theorem batch_interrupts_on_unknown_status_cex :
    processBatch noSendFailure [hwUnknown, hwApproved]
      = ([], some Exc.keyErrorUnknownStatus)
    ∧ ¬ (processBatch noSendFailure [hwUnknown, hwApproved]).1.length = 1 := by
  have h : processBatch noSendFailure [hwUnknown, hwApproved]
      = ([], some Exc.keyErrorUnknownStatus) := rfl
  refine ⟨h, ?_⟩
  rw [h]
  simp

/-- C1 amended: the cycle processes the records in original order, but not
independently: there is no per-record handler, so the first `parse_status`
failure escapes the `for` loop to the cycle-level handler and no later
record of the batch is interpreted or notified; the records before the
failing one keep their notifications.  In a two-record batch, the valid
record is notified when it precedes the invalid one and dropped when it
follows it. -/
theorem batch_aborts_on_first_parse_error (sendRaises : String → Bool)
    (pre : List Value) (msgs : List String) (hw : Value) (e : Exc)
    (rest : List Value)
    (hpre : processBatch sendRaises pre = (msgs, none))
    (hhw : parse_status hw = Except.error e) :
    processBatch sendRaises (pre ++ hw :: rest) = (msgs, some e) := by
  rw [processBatch_append_ok sendRaises pre msgs (hw :: rest) hpre]
  simp [processBatch, hhw]

/-- C1 amended witness: one valid record before the invalid one, one after:
only the one before is notified. -/
theorem batch_aborts_on_first_parse_error_witness :
    processBatch noSendFailure ([hwApproved] ++ hwUnknown :: [hwReviewing])
      = ([msgApproved], some Exc.keyErrorUnknownStatus) :=
  batch_aborts_on_first_parse_error noSendFailure [hwApproved] [msgApproved]
    hwUnknown Exc.keyErrorUnknownStatus [hwReviewing] rfl rfl

/-- C2 counterexample: a transport failure inside `send_message` is
re-raised as `CanNotSendMessage` — it does propagate to the caller — and in
a batch of two valid records whose first delivery fails, no delivery is
attempted for the second record. -/
theorem send_failure_propagates_cex :
    send_message (fun _ => true) "hello" = Except.error Exc.canNotSendMessage
    ∧ processBatch (fun t => t == msgApproved) [hwApproved, hwReviewing]
        = ([msgApproved], some Exc.canNotSendMessage)
    ∧ ¬ (processBatch (fun t => t == msgApproved) [hwApproved, hwReviewing]).1.length
        = 2 := by
  have h : processBatch (fun t => t == msgApproved) [hwApproved, hwReviewing]
      = ([msgApproved], some Exc.canNotSendMessage) := rfl
  refine ⟨rfl, h, ?_⟩
  rw [h]
  simp

/-- C2 amended: a transport failure inside `send_message` is logged and
re-raised as `CanNotSendMessage`; the exception propagates out of the `for`
loop and aborts the rest of the batch: deliveries before the failing one
stand, the failing text is the last delivery attempt of the cycle, and no
subsequent submission of the batch is attempted. -/
theorem send_failure_aborts_rest_of_batch (sendRaises : String → Bool)
    (pre : List Value) (msgs : List String) (hw : Value) (msg : String)
    (rest : List Value)
    (hpre : processBatch sendRaises pre = (msgs, none))
    (hparse : parse_status hw = Except.ok msg)
    (hsend : sendRaises msg = true) :
    processBatch sendRaises (pre ++ hw :: rest)
      = (msgs ++ [msg], some Exc.canNotSendMessage) := by
  rw [processBatch_append_ok sendRaises pre msgs (hw :: rest) hpre]
  simp [processBatch, hparse, send_message, hsend]

/-- C2 amended witness: two valid records, the delivery of the first text
fails: the second record is never attempted. -/
theorem send_failure_aborts_rest_of_batch_witness :
    processBatch (fun t => t == msgApproved) ([] ++ hwApproved :: [hwReviewing])
      = ([] ++ [msgApproved], some Exc.canNotSendMessage) :=
  send_failure_aborts_rest_of_batch (fun t => t == msgApproved) [] []
    hwApproved msgApproved [hwReviewing] rfl rfl rfl

/-- C3 counterexample: with all three secrets present but empty,
`check_tokens` does not terminate the process — the check is `is None`, not
emptiness — it returns normally and control reaches the bot construction,
where the telegram library (which rejects an empty token) kills the process
with an uncaught `InvalidToken`, not `check_tokens`. -/
theorem empty_secrets_pass_check_tokens_cex :
    check_tokens envEmptyStrings = false
    ∧ main envEmptyStrings botRejectsEmptyToken [(probeWorld, 1000)]
        = MainResult.crashed
    ∧ ¬ main envEmptyStrings botRejectsEmptyToken [(probeWorld, 1000)]
        = MainResult.exited (missingTokens envEmptyStrings)
    ∧ mainRequests (main envEmptyStrings botRejectsEmptyToken [(probeWorld, 1000)])
        = [] := by
  have h : main envEmptyStrings botRejectsEmptyToken [(probeWorld, 1000)]
      = MainResult.crashed := rfl
  refine ⟨rfl, h, ?_, rfl⟩
  rw [h]
  simp

/-- C3 amended: `check_tokens`, run exactly once before the loop starts,
terminates the process exactly when at least one of the three secrets is
unset (`None`); emptiness is not checked by it, so an empty-string secret
passes.  When it terminates, it does so before any network call is
attempted.  When all three secrets are set, `check_tokens` returns normally
and control reaches `telegram.Bot(token=TELEGRAM_TOKEN)`, run outside any
handler: if the library rejects the token (as it does an empty one) the
process dies there, still before any HTTP request; only if it accepts does
the loop start. -/
theorem check_tokens_exits_iff_unset (env : Env)
    (botInitRaises : Option String → Bool)
    (worlds : List (CycleWorld × Int)) :
    (check_tokens env = true ↔
      (env.PRACTICUM_TOKEN = none ∨ env.TELEGRAM_TOKEN = none
        ∨ env.TELEGRAM_CHAT_ID = none))
    ∧ (check_tokens env = true →
      main env botInitRaises worlds = MainResult.exited (missingTokens env)
        ∧ mainRequests (main env botInitRaises worlds) = [])
    ∧ (check_tokens env = false → botInitRaises env.TELEGRAM_TOKEN = true →
      main env botInitRaises worlds = MainResult.crashed
        ∧ mainRequests (main env botInitRaises worlds) = [])
    ∧ (check_tokens env = false → botInitRaises env.TELEGRAM_TOKEN = false →
      main env botInitRaises worlds
        = MainResult.ran (runLoop env.PRACTICUM_TOKEN worlds)) := by
  refine ⟨?_, ?_, ?_, ?_⟩
  · obtain ⟨p, t, c⟩ := env
    cases p <;> cases t <;> cases c <;>
      simp [check_tokens, missingTokens, globalsGet]
  · intro h
    constructor
    · simp [main, h]
    · simp [main, h, mainRequests]
  · intro h hb
    constructor
    · simp [main, h, hb]
    · simp [main, h, hb, mainRequests]
  · intro h hb
    simp [main, h, hb]

/-- C3 amended witness: an unset API token is fatal before any request. -/
theorem check_tokens_exits_iff_unset_witness :
    main ⟨none, some "t", some "c"⟩ botRejectsEmptyToken []
        = MainResult.exited ["PRACTICUM_TOKEN"]
    ∧ mainRequests (main ⟨none, some "t", some "c"⟩ botRejectsEmptyToken []) = [] :=
  (check_tokens_exits_iff_unset ⟨none, some "t", some "c"⟩
    botRejectsEmptyToken []).2.1 rfl

end HomeworkBot
